import Mathlib

/-
Verification development for the QuestDB Node.js client binding
(src/include/sender.h, src/src/sender.cc, src/src/questdbclient.cc).

The binding wraps the QuestDB C line-sender library (questdb/ilp/line_sender.h),
whose implementation is not part of this repository.  Definitions below that
carry a doc comment starting with "Modelled from the spec:" embed that missing
library, faithful to the specification's description of the line-protocol
buffer and the connection lifecycle.  All other definitions are translated
directly from src/src/sender.cc.
-/

namespace QuestDB

/-- Errors produced by the native line-sender layer.  The C API reports every
failure through a `line_sender_error` handle carrying a message; we keep the
two families the spec distinguishes: malformed input and a row-building call
made in a state that forbids it. -/
inductive IlpError
  | invalidArg
  | orderViolation
deriving DecidableEq, Repr

/-- Message text attached to a native error, read by `HandleErr` via
`line_sender_error_msg`. -/
def errMsg : IlpError → String
  | .invalidArg => "invalid argument"
  | .orderViolation => "symbols must precede data columns in a row"

/-- Modelled from the spec: characters a table or column identifier may not
contain (the wire format's reserved characters and control characters),
checked by `line_sender_table_name_init` / `line_sender_column_name_init`. -/
def validNameChar (c : Char) : Bool :=
  !(c = ',' || c = ' ' || c = '=' || c = '"' || c = '\n' || c.toNat < 32)

/-- Modelled from the spec: a legal table identifier is nonempty and contains
no reserved or control characters. -/
def validTableName (s : String) : Bool :=
  !s.isEmpty && s.toList.all validNameChar

/-- Modelled from the spec: a legal column (or symbol) identifier obeys the
same character rules as a table identifier. -/
def validColumnName (s : String) : Bool :=
  !s.isEmpty && s.toList.all validNameChar

/-- Modelled from the spec: escaping of a single protocol-reserved character
(comma, space, equals sign, quote, newline) inside a symbol or string value. -/
def escapeChar (c : Char) : String :=
  if c = ',' || c = ' ' || c = '=' || c = '"' || c = '\n' then
    "\\" ++ String.mk [c]
  else
    String.mk [c]

/-- Escapes of every character of a value, concatenated. -/
def escapeList : List Char → String
  | [] => ""
  | c :: rest => escapeChar c ++ escapeList rest

/-- Modelled from the spec: value-escaping for protocol-reserved characters. -/
def escapeValue (s : String) : String :=
  escapeList s.toList

/-- Decimal digits of the fractional part `r / d`, produced by long division;
the fuel argument bounds the number of digits and the recursion stops as soon
as the remainder reaches zero. -/
def decDigits : ℕ → ℕ → ℕ → List ℕ
  | 0, _, _ => []
  | _ + 1, 0, _ => []
  | fuel + 1, r + 1, d => (((r + 1) * 10) / d) :: decDigits fuel (((r + 1) * 10) % d) d

/-- Digit list rendered as a string. -/
def digitsStr : List ℕ → String
  | [] => ""
  | x :: rest => toString x ++ digitsStr rest

/-- Binary floating-point values are embedded as exact fractions: a JavaScript
number is `num / den` with `den ≠ 0` (every IEEE-754 double is such a
rational, with a power-of-two denominator). -/
structure JsNum where
  num : ℤ
  den : ℕ
deriving DecidableEq, Repr

/-- Modelled from the spec: round-trip-safe decimal rendering of a float
column value.  Every double has a terminating decimal expansion, so the long
division below reaches remainder zero within the fuel bound. -/
def renderF64 (q : JsNum) : String :=
  let sign := if q.num < 0 then "-" else ""
  let a := q.num.natAbs
  let ds := decDigits (a + q.den + 1200) (a % q.den) q.den
  sign ++ toString (a / q.den) ++ "." ++ (if ds.isEmpty then "0" else digitsStr ds)

/-- Modelled from the spec: row-assembly states of the line buffer.  A closed
row returns to `NeedTable`, so no separate `RowClosed` state is needed. -/
inductive RowState
  | NeedTable
  | NeedFirstField
  | InSymbols
  | InColumns
deriving DecidableEq, Repr

/-- Modelled from the spec: the line buffer is a growable byte sequence
(`data`), a reserved capacity, and the row-assembly state. -/
structure LineBuffer where
  data : String
  cap : ℕ
  rowState : RowState
deriving DecidableEq, Repr

/-- Modelled from the spec: `line_sender_buffer_new` returns an empty buffer
with no reserved capacity, ready for a table token. -/
def bufferNew : LineBuffer := ⟨"", 0, .NeedTable⟩

/-- Modelled from the spec: `line_sender_buffer_reserve` grows the reserved
capacity without touching the contents. -/
def bufferReserve (b : LineBuffer) (n : ℕ) : LineBuffer :=
  { b with cap := max b.cap n }

/-- Modelled from the spec: `line_sender_buffer_table` — validates the table
identifier, appends it unescaped as the row's first token; legal only at the
start of a row. -/
def bufTable (b : LineBuffer) (name : String) : Except IlpError LineBuffer :=
  if !validTableName name then .error .invalidArg
  else if b.rowState = .NeedTable then
    .ok ⟨b.data ++ name, b.cap, .NeedFirstField⟩
  else .error .orderViolation

/-- Modelled from the spec: `line_sender_buffer_symbol` — appends
`,key=value` with value escaping; legal only before the first non-symbol
column of the row. -/
def bufSymbol (b : LineBuffer) (k v : String) : Except IlpError LineBuffer :=
  if !validColumnName k then .error .invalidArg
  else if b.rowState = .NeedFirstField ∨ b.rowState = .InSymbols then
    .ok ⟨b.data ++ "," ++ k ++ "=" ++ escapeValue v, b.cap, .InSymbols⟩
  else .error .orderViolation

/-- Modelled from the spec: separator before a non-symbol column — a single
space for the first one, a comma afterwards. -/
def colSep (s : RowState) : String :=
  if s = .InColumns then "," else " "

/-- Modelled from the spec: common part of `line_sender_buffer_column_*` —
validates the column identifier and appends `key=token` behind the proper
separator; illegal before the table token is written. -/
def bufColumn (b : LineBuffer) (k : String) (tok : String) : Except IlpError LineBuffer :=
  if !validColumnName k then .error .invalidArg
  else if b.rowState = .NeedTable then .error .orderViolation
  else
    .ok ⟨b.data ++ colSep b.rowState ++ k ++ "=" ++ tok, b.cap, .InColumns⟩

/-- Modelled from the spec: a string column value is quoted and escaped. -/
def renderStr (s : String) : String := "\"" ++ escapeValue s ++ "\""

/-- Modelled from the spec: booleans render as a single-character token. -/
def renderBool (x : Bool) : String := if x then "t" else "f"

/-- Modelled from the spec: 64-bit integers render as decimal with the `i`
type suffix. -/
def renderI64 (n : ℤ) : String := toString n ++ "i"

/-- Modelled from the spec: microsecond timestamp columns render as decimal
with the `t` type suffix; the integer is not converted to other units. -/
def renderTs (micros : ℤ) : String := toString micros ++ "t"

/-- Modelled from the spec: `line_sender_buffer_column_str`. -/
def bufColumnStr (b : LineBuffer) (k v : String) : Except IlpError LineBuffer :=
  bufColumn b k (renderStr v)

/-- Modelled from the spec: `line_sender_buffer_column_bool`. -/
def bufColumnBool (b : LineBuffer) (k : String) (v : Bool) : Except IlpError LineBuffer :=
  bufColumn b k (renderBool v)

/-- Modelled from the spec: `line_sender_buffer_column_i64`. -/
def bufColumnI64 (b : LineBuffer) (k : String) (v : ℤ) : Except IlpError LineBuffer :=
  bufColumn b k (renderI64 v)

/-- Modelled from the spec: `line_sender_buffer_column_f64`. -/
def bufColumnF64 (b : LineBuffer) (k : String) (v : JsNum) : Except IlpError LineBuffer :=
  bufColumn b k (renderF64 v)

/-- Modelled from the spec: `line_sender_buffer_column_ts` takes the integer
microsecond value as given. -/
def bufColumnTs (b : LineBuffer) (k : String) (micros : ℤ) : Except IlpError LineBuffer :=
  bufColumn b k (renderTs micros)

/-- Modelled from the spec: `line_sender_buffer_at` appends a space, the
nanosecond timestamp as given, and the terminating newline; illegal before
the table token is written. -/
def bufAt (b : LineBuffer) (nanos : ℤ) : Except IlpError LineBuffer :=
  if b.rowState = .NeedTable then .error .orderViolation
  else
    .ok ⟨b.data ++ " " ++ toString nanos ++ "\n", b.cap, .NeedTable⟩

/-- Modelled from the spec: `line_sender_buffer_at_now` terminates the row
with a bare newline, emitting no timestamp token. -/
def bufAtNow (b : LineBuffer) : Except IlpError LineBuffer :=
  if b.rowState = .NeedTable then .error .orderViolation
  else
    .ok ⟨b.data ++ "\n", b.cap, .NeedTable⟩

/-- JavaScript values as seen by the binding layer: the argument kinds the
bindings in sender.cc test for (`IsString`, `IsNumber`, `IsBoolean`,
`IsBigInt`), plus `undef` for missing arguments. -/
inductive JSValue
  | str (s : String)
  | num (q : JsNum)
  | bigint (n : ℤ)
  | jsbool (b : Bool)
  | undef
deriving DecidableEq, Repr

def JSValue.isStr : JSValue → Bool
  | .str _ => true
  | _ => false

def JSValue.isNum : JSValue → Bool
  | .num _ => true
  | _ => false

def JSValue.isBigInt : JSValue → Bool
  | .bigint _ => true
  | _ => false

def JSValue.isBool : JSValue → Bool
  | .jsbool _ => true
  | _ => false

def JSValue.asStr : JSValue → String
  | .str s => s
  | _ => ""

def JSValue.asNum : JSValue → JsNum
  | .num q => q
  | _ => ⟨0, 1⟩

def JSValue.asBool : JSValue → Bool
  | .jsbool b => b
  | _ => false

/-- Truncation toward zero of an exact fraction, the behaviour of a C
`double` to integer cast. -/
def jsTrunc (q : JsNum) : ℤ := Int.tdiv q.num q.den

/-- Signed 64-bit wraparound, the behaviour of `v8::BigInt::Int64Value`. -/
def wrap64 (n : ℤ) : ℤ := (n + 2 ^ 63) % 2 ^ 64 - 2 ^ 63

/-- Translation of `extract_int` (sender.cc line 17): a `Number` is cast from
double to `int64_t` (truncating toward zero), a `BigInt` goes through
`Int64Value` (wrapping at 64 bits); the caller has checked the value is one
of the two. -/
def extract_int : JSValue → ℤ
  | .num q => jsTrunc q
  | .bigint n => wrap64 n
  | _ => 0

/-- TLS mode recorded in the native options handle. -/
inductive TlsMode
  | plain
  | systemCAs
  | customCA (path : String)
deriving DecidableEq, Repr

/-- Authentication key material recorded by `line_sender_opts_auth`. -/
structure AuthInfo where
  userId : String
  privateKey : String
  publicKeyX : String
  publicKeyY : String
deriving DecidableEq, Repr

/-- Contents of a `line_sender_opts` handle. -/
structure OptsState where
  host : String
  port : ℤ
  tls : TlsMode
  auth : Option AuthInfo
deriving DecidableEq, Repr

/-- Modelled from the spec: the transport is an opaque byte sink; `sent`
accumulates the bytes flushed over the connection. -/
structure ConnState where
  sent : String
deriving DecidableEq, Repr

/-- Native state of a wrapped `Sender` (sender.h lines 43-46): the four
handle fields `opts`, `sender`, `buffer` (each `none` when NULL or freed),
plus the JavaScript exception pending on the isolate after the call
(`thrown`).  The `err` handle only transports a message into `HandleErr` and
is threaded as an `Except` value instead of a field. -/
structure WrapSt where
  opts : Option OptsState
  conn : Option ConnState
  buffer : Option LineBuffer
  thrown : Option String
deriving DecidableEq, Repr

/-- Freshly constructed `Sender` (sender.h): all handles NULL. -/
def senderNew : WrapSt := ⟨none, none, none, none⟩

/-- Translation of `Sender::HandleErr` (sender.cc line 27): throw a
`TypeError` carrying the native error message, then free the options, error
and buffer handles and close the sender — the poison-on-error teardown. -/
def handleErr (_st : WrapSt) (e : IlpError) : WrapSt :=
  { opts := none, conn := none, buffer := none, thrown := some (errMsg e) }

/-- Modelled from the spec: a native buffer call made through a NULL (never
allocated, or freed by the error teardown) buffer handle fails. -/
def libBufOp (ob : Option LineBuffer) (f : LineBuffer → Except IlpError LineBuffer) :
    Except IlpError LineBuffer :=
  match ob with
  | none => .error .invalidArg
  | some b => f b

/-- Translation of `Sender::DoEndPoint` (sender.cc line 39): the host string
arrives from `String::Utf8Value`, which always yields valid UTF-8, so the
`line_sender_utf8_init` check passes and a fresh options handle is stored
unconditionally; the port is forwarded as given, without any range check. -/
def doEndPoint (st : WrapSt) (host : String) (port : ℤ) : WrapSt :=
  { st with opts := some ⟨host, port, .plain, none⟩ }

/-- Translation of `Sender::DoConnect` (sender.cc line 48):
`line_sender_connect` consumes the options (freed and set to NULL on every
path); on failure the function returns false leaving the other handles
untouched; on success it allocates the buffer and reserves 64 KiB.  Whether
the network handshake succeeds is outside the repository, so it enters as
the oracle `netOk`; a NULL options handle cannot yield a connection. -/
def doConnect (netOk : Bool) (st : WrapSt) : Bool × WrapSt :=
  let ok := st.opts.isSome && netOk
  if ok then
    (true, { st with opts := none, conn := some ⟨""⟩,
                     buffer := some (bufferReserve bufferNew (64 * 1024)) })
  else
    (false, { st with opts := none })

/-- Shape shared by the `Sender::Do*` row-building helpers in sender.cc:
validate the identifier through the native name/utf8 init (`HandleErr` on
failure, after which the code continues), then run the native buffer call
and `HandleErr` on its failure. -/
def doBufCall (st : WrapSt) (nameOk : Bool) (f : LineBuffer → Except IlpError LineBuffer) :
    WrapSt :=
  let st1 := if nameOk then st else handleErr st .invalidArg
  match libBufOp st1.buffer f with
  | .ok b => { st1 with buffer := some b }
  | .error e => handleErr st1 e

/-- Translation of `Sender::DoSetTable` (sender.cc line 171):
`line_sender_table_name_init` validates the identifier, then
`line_sender_buffer_table` appends the token. -/
def doSetTable (st : WrapSt) (name : String) : WrapSt :=
  doBufCall st (validTableName name) (fun b => bufTable b name)

/-- Translation of `Sender::DoAddSymbol` (sender.cc line 155): column-name
validation, then the native symbol append (which enforces the row-ordering
invariant). -/
def doAddSymbol (st : WrapSt) (k v : String) : WrapSt :=
  doBufCall st (validColumnName k) (fun b => bufSymbol b k v)

/-- Translation of `Sender::DoAddString` (sender.cc line 139). -/
def doAddString (st : WrapSt) (k v : String) : WrapSt :=
  doBufCall st (validColumnName k) (fun b => bufColumnStr b k v)

/-- Translation of `Sender::DoAddBool` (sender.cc line 128). -/
def doAddBool (st : WrapSt) (k : String) (v : Bool) : WrapSt :=
  doBufCall st (validColumnName k) (fun b => bufColumnBool b k v)

/-- Translation of `Sender::DoAddInt64` (sender.cc line 106): the `int64_t`
value reaches the buffer encoding unchanged. -/
def doAddInt64 (st : WrapSt) (k : String) (v : ℤ) : WrapSt :=
  doBufCall st (validColumnName k) (fun b => bufColumnI64 b k v)

/-- Translation of `Sender::DoAddFloat64` (sender.cc line 95). -/
def doAddFloat64 (st : WrapSt) (k : String) (v : JsNum) : WrapSt :=
  doBufCall st (validColumnName k) (fun b => bufColumnF64 b k v)

/-- Translation of `Sender::DoAddTimestamp` (sender.cc line 117): the
microsecond value reaches the buffer encoding unchanged. -/
def doAddTimestamp (st : WrapSt) (k : String) (micros : ℤ) : WrapSt :=
  doBufCall st (validColumnName k) (fun b => bufColumnTs b k micros)

/-- Modelled from the spec: `line_sender_flush` requires a live sender and a
buffer holding only complete newline-terminated rows; it writes the buffer
bytes to the transport and clears the contents, retaining the capacity. -/
def libFlush (oc : Option ConnState) (ob : Option LineBuffer) :
    Except IlpError (ConnState × LineBuffer) :=
  match oc, ob with
  | some c, some b =>
    if b.rowState = .NeedTable then
      .ok (⟨c.sent ++ b.data⟩, ⟨"", b.cap, b.rowState⟩)
    else .error .invalidArg
  | _, _ => .error .invalidArg

/-- Value a binding call leaves in `args.GetReturnValue()`: the holder object
itself, a boolean, or nothing (undefined). -/
inductive RetVal
  | self
  | undef
  | boolean (b : Bool)
deriving DecidableEq, Repr

/-- Result of one binding call: the sender's native state (with any pending
exception) and the JavaScript return value. -/
structure CallRes where
  st : WrapSt
  ret : RetVal
deriving DecidableEq, Repr

/-- Binding-level argument-check failure: throw a `TypeError` and return
before touching the wrapped instance. -/
def throwRes (st : WrapSt) (msg : String) : CallRes :=
  ⟨{ st with thrown := some msg }, .undef⟩

/-- Argument access, `undef` past the end of the argument list. -/
def arg (args : List JSValue) (i : ℕ) : JSValue := args.getD i JSValue.undef

/-- Translation of `Sender::EndPoint` (sender.cc line 365): argument checks
(count, host string, port number), then `DoEndPoint` with the port cast from
double to `int`, returning the holder. -/
def sEndPoint (args : List JSValue) (st : WrapSt) : CallRes :=
  if args.length < 2 then
    throwRes st "Wrong number of arguments, host and port expected"
  else if !(arg args 0).isStr then
    throwRes st "First argument (host) should be a string"
  else if !(arg args 1).isNum then
    throwRes st "Second argument (port) should be an integer"
  else
    ⟨doEndPoint st (arg args 0).asStr (jsTrunc (arg args 1).asNum), .self⟩

/-- Update of the TLS mode stored in an options handle
(`line_sender_opts_tls` / `line_sender_opts_tls_ca`). -/
def optsSetTls (m : TlsMode) (o : OptsState) : OptsState := { o with tls := m }

/-- Update of the auth material stored in an options handle
(`line_sender_opts_auth`). -/
def optsSetAuth (a : AuthInfo) (o : OptsState) : OptsState := { o with auth := some a }

/-- Translation of `Sender::EnableTLS` (sender.cc line 409): no argument
checks; `line_sender_opts_tls` switches the options to the system trust
store; returns the holder. -/
def sEnableTLS (_args : List JSValue) (st : WrapSt) : CallRes :=
  ⟨{ st with opts := st.opts.map (optsSetTls .systemCAs) }, .self⟩

/-- Translation of `Sender::EnableTLSWithCA` (sender.cc line 419): argument
checks, then `line_sender_opts_tls_ca` records the CA path (the UTF-8 check
on a binding-layer string always passes); returns the holder. -/
def sEnableTLSWithCA (args : List JSValue) (st : WrapSt) : CallRes :=
  if args.length < 1 then
    throwRes st "Wrong number of arguments, CA path expected"
  else if !(arg args 0).isStr then
    throwRes st "First argument (CA path) should be a string"
  else
    ⟨{ st with opts := st.opts.map (optsSetTls (.customCA (arg args 0).asStr)) }, .self⟩

/-- Translation of `Sender::WithAuth` (sender.cc line 440): four string
arguments checked in order, then `DoWithAuth` records the key material (the
four UTF-8 checks on binding-layer strings always pass); returns the
holder. -/
def sWithAuth (args : List JSValue) (st : WrapSt) : CallRes :=
  if args.length < 4 then
    throwRes st "Wrong number of arguments, user_id, private_key, public_key_x and public_key_y expected"
  else if !(arg args 0).isStr then
    throwRes st "First argument (user id) should be a string"
  else if !(arg args 1).isStr then
    throwRes st "Second argument (private key) should be a string"
  else if !(arg args 2).isStr then
    throwRes st "Third argument (public key x) should be a string"
  else if !(arg args 3).isStr then
    throwRes st "Fourth argument (public key y) should be a string"
  else
    let a : AuthInfo :=
      ⟨(arg args 0).asStr, (arg args 1).asStr, (arg args 2).asStr, (arg args 3).asStr⟩
    ⟨{ st with opts := st.opts.map (optsSetAuth a) }, .self⟩

/-- Translation of `Sender::Connect` (sender.cc line 392): rejects any
arguments, runs `DoConnect` and returns its boolean. -/
def sConnect (netOk : Bool) (args : List JSValue) (st : WrapSt) : CallRes :=
  if args.length > 0 then
    throwRes st "No arguments expected"
  else
    let r := doConnect netOk st
    ⟨r.2, .boolean r.1⟩

/-- Translation of `Sender::SetTable` (sender.cc line 344). -/
def sSetTable (args : List JSValue) (st : WrapSt) : CallRes :=
  if args.length < 1 then
    throwRes st "Wrong number of arguments, table name expected"
  else if !(arg args 0).isStr then
    throwRes st "First argument (table name) should be a string"
  else
    ⟨doSetTable st (arg args 0).asStr, .self⟩

/-- Translation of `Sender::AddSymbol` (sender.cc line 182). -/
def sAddSymbol (args : List JSValue) (st : WrapSt) : CallRes :=
  if args.length < 2 then
    throwRes st "Wrong number of arguments, symbol name and value expected"
  else if !(arg args 0).isStr then
    throwRes st "First argument (symbol name) should be a string"
  else if !(arg args 1).isStr then
    throwRes st "Second argument (symbol value) should be a string"
  else
    ⟨doAddSymbol st (arg args 0).asStr (arg args 1).asStr, .self⟩

/-- Translation of `Sender::AddString` (sender.cc line 209). -/
def sAddString (args : List JSValue) (st : WrapSt) : CallRes :=
  if args.length < 2 then
    throwRes st "Wrong number of arguments, column name and value expected"
  else if !(arg args 0).isStr then
    throwRes st "First argument (column name) should be a string"
  else if !(arg args 1).isStr then
    throwRes st "Second argument (string value) should be a string"
  else
    ⟨doAddString st (arg args 0).asStr (arg args 1).asStr, .self⟩

/-- Translation of `Sender::AddBool` (sender.cc line 236). -/
def sAddBool (args : List JSValue) (st : WrapSt) : CallRes :=
  if args.length < 2 then
    throwRes st "Wrong number of arguments, column name and value expected"
  else if !(arg args 0).isStr then
    throwRes st "First argument (column name) should be a string"
  else if !(arg args 1).isBool then
    throwRes st "Second argument (boolean value) should be a boolean"
  else
    ⟨doAddBool st (arg args 0).asStr (arg args 1).asBool, .self⟩

/-- Translation of `Sender::AddFloat64` (sender.cc line 263). -/
def sAddFloat64 (args : List JSValue) (st : WrapSt) : CallRes :=
  if args.length < 2 then
    throwRes st "Wrong number of arguments, column name and value expected"
  else if !(arg args 0).isStr then
    throwRes st "First argument (column name) should be a string"
  else if !(arg args 1).isNum then
    throwRes st "Second argument (float64 value) should be a number"
  else
    ⟨doAddFloat64 st (arg args 0).asStr (arg args 1).asNum, .self⟩

/-- Translation of `Sender::AddInt64` (sender.cc line 290): the type check
accepts any `Number` or `BigInt`; the value then goes through `extract_int`,
which truncates a fractional `Number` toward zero. -/
def sAddInt64 (args : List JSValue) (st : WrapSt) : CallRes :=
  if args.length < 2 then
    throwRes st "Wrong number of arguments, column name and value expected"
  else if !(arg args 0).isStr then
    throwRes st "First argument (column name) should be a string"
  else if !((arg args 1).isNum || (arg args 1).isBigInt) then
    throwRes st "Second argument (int64 value) should be an integer"
  else
    ⟨doAddInt64 st (arg args 0).asStr (extract_int (arg args 1)), .self⟩

/-- Translation of `Sender::AddTimestamp` (sender.cc line 317): the
microsecond value goes through `extract_int` and on to the buffer
unchanged. -/
def sAddTimestamp (args : List JSValue) (st : WrapSt) : CallRes :=
  if args.length < 2 then
    throwRes st "Wrong number of arguments, column name and value expected"
  else if !(arg args 0).isStr then
    throwRes st "First argument (column name) should be a string"
  else if !((arg args 1).isNum || (arg args 1).isBigInt) then
    throwRes st "Second argument (timestamp value) should be an integer"
  else
    ⟨doAddTimestamp st (arg args 0).asStr (extract_int (arg args 1)), .self⟩

/-- Translation of `Sender::At` (sender.cc line 479): argument checks, then
`line_sender_buffer_at` directly with the extracted nanosecond value; no
return value is set. -/
def sAt (args : List JSValue) (st : WrapSt) : CallRes :=
  if args.length < 1 then
    throwRes st "Wrong number of arguments, timestamp value expected"
  else if !((arg args 0).isNum || (arg args 0).isBigInt) then
    throwRes st "First argument (timestamp value) should be an integer"
  else
    match libBufOp st.buffer (fun b => bufAt b (extract_int (arg args 0))) with
    | .ok b => ⟨{ st with buffer := some b }, .undef⟩
    | .error e => ⟨handleErr st e, .undef⟩

/-- Translation of `Sender::AtNow` (sender.cc line 500): no argument checks;
`line_sender_buffer_at_now` directly; no return value is set. -/
def sAtNow (_args : List JSValue) (st : WrapSt) : CallRes :=
  match libBufOp st.buffer bufAtNow with
  | .ok b => ⟨{ st with buffer := some b }, .undef⟩
  | .error e => ⟨handleErr st e, .undef⟩

/-- Translation of `Sender::Flush` (sender.cc line 510): no argument checks;
`line_sender_flush` over the sender and buffer handles; no return value is
set. -/
def sFlush (_args : List JSValue) (st : WrapSt) : CallRes :=
  match libFlush st.conn st.buffer with
  | .ok r => ⟨{ st with conn := some r.1, buffer := some r.2 }, .undef⟩
  | .error e => ⟨handleErr st e, .undef⟩

/-- Translation of `Sender::Close` (sender.cc line 520): no argument checks
and no throw path; `line_sender_close` releases the transport (modelled from
the spec as idempotent and safe on a NULL handle); no return value is set. -/
def sClose (_args : List JSValue) (st : WrapSt) : CallRes :=
  ⟨{ st with conn := none }, .undef⟩

/-- Methods the binding registers on the `Sender` prototype
(sender.cc lines 540-555). -/
inductive JsCall
  | endpointC
  | enableTLSC
  | enableTLSWithCAC
  | withAuthC
  | connectC
  | closeC
  | flushC
  | atC
  | atNowC
  | tableC
  | symbolC
  | stringC
  | booleanC
  | int64C
  | float64C
  | timestampC
deriving DecidableEq, Repr

/-- Dispatch of one JavaScript method call on a wrapped `Sender`; `netOk` is
the network oracle consumed by `connect`. -/
def dispatch (c : JsCall) (netOk : Bool) (args : List JSValue) (st : WrapSt) : CallRes :=
  match c with
  | .endpointC => sEndPoint args st
  | .enableTLSC => sEnableTLS args st
  | .enableTLSWithCAC => sEnableTLSWithCA args st
  | .withAuthC => sWithAuth args st
  | .connectC => sConnect netOk args st
  | .closeC => sClose args st
  | .flushC => sFlush args st
  | .atC => sAt args st
  | .atNowC => sAtNow args st
  | .tableC => sSetTable args st
  | .symbolC => sAddSymbol args st
  | .stringC => sAddString args st
  | .booleanC => sAddBool args st
  | .int64C => sAddInt64 args st
  | .float64C => sAddFloat64 args st
  | .timestampC => sAddTimestamp args st

/-- Conjunction of the binding-level argument checks each method performs
before it touches the wrapped instance (mirrors the guards of the
corresponding `Sender::*` binding in sender.cc). -/
def bindingOk (c : JsCall) (args : List JSValue) : Bool :=
  match c with
  | .endpointC => 2 ≤ args.length && (arg args 0).isStr && (arg args 1).isNum
  | .enableTLSC => true
  | .enableTLSWithCAC => 1 ≤ args.length && (arg args 0).isStr
  | .withAuthC => 4 ≤ args.length && (arg args 0).isStr && (arg args 1).isStr
      && (arg args 2).isStr && (arg args 3).isStr
  | .connectC => args.length = 0
  | .closeC => true
  | .flushC => true
  | .atC => 1 ≤ args.length && ((arg args 0).isNum || (arg args 0).isBigInt)
  | .atNowC => true
  | .tableC => 1 ≤ args.length && (arg args 0).isStr
  | .symbolC => 2 ≤ args.length && (arg args 0).isStr && (arg args 1).isStr
  | .stringC => 2 ≤ args.length && (arg args 0).isStr && (arg args 1).isStr
  | .booleanC => 2 ≤ args.length && (arg args 0).isStr && (arg args 1).isBool
  | .int64C => 2 ≤ args.length && (arg args 0).isStr
      && ((arg args 1).isNum || (arg args 1).isBigInt)
  | .float64C => 2 ≤ args.length && (arg args 0).isStr && (arg args 1).isNum
  | .timestampC => 2 ≤ args.length && (arg args 0).isStr
      && ((arg args 1).isNum || (arg args 1).isBigInt)

/-- Typed column value, covering the five non-symbol column kinds the
binding exposes. -/
inductive ColVal
  | cstr (s : String)
  | cbool (x : Bool)
  | ci64 (n : ℤ)
  | cf64 (q : JsNum)
  | cts (n : ℤ)
deriving DecidableEq, Repr

/-- Wire token of a typed column value. -/
def renderCol : ColVal → String
  | .cstr s => renderStr s
  | .cbool x => renderBool x
  | .ci64 n => renderI64 n
  | .cf64 q => renderF64 q
  | .cts n => renderTs n

/-- Buffer append for one typed column. -/
def bufColVal (b : LineBuffer) (k : String) (v : ColVal) : Except IlpError LineBuffer :=
  bufColumn b k (renderCol v)

/-- Sequence of `symbol` calls on the buffer. -/
def runSymbols : LineBuffer → List (String × String) → Except IlpError LineBuffer
  | b, [] => .ok b
  | b, p :: rest =>
    match bufSymbol b p.1 p.2 with
    | .error e => .error e
    | .ok b1 => runSymbols b1 rest

/-- Sequence of typed column calls on the buffer. -/
def runCols : LineBuffer → List (String × ColVal) → Except IlpError LineBuffer
  | b, [] => .ok b
  | b, p :: rest =>
    match bufColVal b p.1 p.2 with
    | .error e => .error e
    | .ok b1 => runCols b1 rest

/-- One full row: `table`, zero or more `symbol`s, zero or more typed
columns, then `at nanos` (`ts = some nanos`) or `atNow` (`ts = none`). -/
def runRow (b : LineBuffer) (tbl : String) (syms : List (String × String))
    (cols : List (String × ColVal)) (ts : Option ℤ) : Except IlpError LineBuffer :=
  match bufTable b tbl with
  | .error e => .error e
  | .ok b1 =>
    match runSymbols b1 syms with
    | .error e => .error e
    | .ok b2 =>
      match runCols b2 cols with
      | .error e => .error e
      | .ok b3 =>
        match ts with
        | some n => bufAt b3 n
        | none => bufAtNow b3

/-- Symbol section of the grammar: `(,key=value)*`. -/
def symsStr : List (String × String) → String
  | [] => ""
  | p :: rest => "," ++ p.1 ++ "=" ++ escapeValue p.2 ++ symsStr rest

/-- Continuation of the column section: `(,key=value)*`. -/
def colsTail : List (String × ColVal) → String
  | [] => ""
  | p :: rest => "," ++ p.1 ++ "=" ++ renderCol p.2 ++ colsTail rest

/-- Column section of the grammar: `( key=value(,key=value)*)?`. -/
def colsStr : List (String × ColVal) → String
  | [] => ""
  | p :: rest => " " ++ p.1 ++ "=" ++ renderCol p.2 ++ colsTail rest

/-- Timestamp section of the grammar: `( timestamp_nanos)?`. -/
def tsStr : Option ℤ → String
  | none => ""
  | some n => " " ++ toString n

/-- State of the sender once the pending JavaScript exception has been
delivered to the caller (the isolate clears it before the next call). -/
def clearThrown (st : WrapSt) : WrapSt := { st with thrown := none }

/-- Methods that mutate the row buffer or flush it — the calls the
poison-on-error policy is about. -/
def rowOrFlush : JsCall → Bool
  | .tableC | .symbolC | .stringC | .booleanC | .int64C | .float64C
  | .timestampC | .atC | .atNowC | .flushC => true
  | _ => false

/-- Return-value shape each method leaves on a successful call: the builder
and row-building methods return the holder, `connect` a boolean, and `at`,
`atNow`, `flush`, `close` return undefined. -/
def retOk : JsCall → RetVal → Bool
  | .endpointC, .self | .enableTLSC, .self | .enableTLSWithCAC, .self
  | .withAuthC, .self | .tableC, .self | .symbolC, .self | .stringC, .self
  | .booleanC, .self | .int64C, .self | .float64C, .self | .timestampC, .self => true
  | .connectC, .boolean _ => true
  | .atC, .undef | .atNowC, .undef | .flushC, .undef | .closeC, .undef => true
  | _, _ => false

theorem runSymbols_ok : ∀ (syms : List (String × String)) (b : LineBuffer),
    b.rowState = .NeedFirstField ∨ b.rowState = .InSymbols →
    (∀ p ∈ syms, validColumnName p.1 = true) →
    runSymbols b syms =
      .ok ⟨b.data ++ symsStr syms, b.cap,
           if syms.isEmpty then b.rowState else .InSymbols⟩ := by
  intro syms
  induction syms with
  | nil =>
    intro b _ _
    simp [runSymbols, symsStr]
  | cons p rest ih =>
    intro b hb hv
    have hk : validColumnName p.1 = true := hv p (List.mem_cons_self p rest)
    have hrest : ∀ q ∈ rest, validColumnName q.1 = true :=
      fun q hq => hv q (List.mem_cons_of_mem p hq)
    have hstep : bufSymbol b p.1 p.2 =
        .ok ⟨b.data ++ "," ++ p.1 ++ "=" ++ escapeValue p.2, b.cap, .InSymbols⟩ := by
      rcases hb with hb | hb <;> simp [bufSymbol, hk, hb]
    have ihb := ih ⟨b.data ++ "," ++ p.1 ++ "=" ++ escapeValue p.2, b.cap, .InSymbols⟩
      (Or.inr rfl) hrest
    simp only [runSymbols, hstep, ihb, symsStr, List.isEmpty_cons]
    simp [String.append_assoc]

theorem runCols_from_columns : ∀ (cols : List (String × ColVal)) (b : LineBuffer),
    b.rowState = .InColumns →
    (∀ p ∈ cols, validColumnName p.1 = true) →
    runCols b cols = .ok ⟨b.data ++ colsTail cols, b.cap, .InColumns⟩ := by
  intro cols
  induction cols with
  | nil =>
    intro b hb _
    simp [runCols, colsTail, hb.symm]
  | cons p rest ih =>
    intro b hb hv
    have hk : validColumnName p.1 = true := hv p (List.mem_cons_self p rest)
    have hrest : ∀ q ∈ rest, validColumnName q.1 = true :=
      fun q hq => hv q (List.mem_cons_of_mem p hq)
    have hstep : bufColVal b p.1 p.2 =
        .ok ⟨b.data ++ "," ++ p.1 ++ "=" ++ renderCol p.2, b.cap, .InColumns⟩ := by
      simp [bufColVal, bufColumn, colSep, hk, hb]
    have ihb := ih ⟨b.data ++ "," ++ p.1 ++ "=" ++ renderCol p.2, b.cap, .InColumns⟩
      rfl hrest
    simp only [runCols, hstep, ihb, colsTail]
    simp [String.append_assoc]

theorem runCols_ok : ∀ (cols : List (String × ColVal)) (b : LineBuffer),
    b.rowState = .NeedFirstField ∨ b.rowState = .InSymbols →
    (∀ p ∈ cols, validColumnName p.1 = true) →
    runCols b cols =
      .ok ⟨b.data ++ colsStr cols, b.cap,
           if cols.isEmpty then b.rowState else .InColumns⟩ := by
  intro cols b hb hv
  match cols with
  | [] => simp [runCols, colsStr]
  | p :: rest =>
    have hk : validColumnName p.1 = true := hv p (List.mem_cons_self p rest)
    have hrest : ∀ q ∈ rest, validColumnName q.1 = true :=
      fun q hq => hv q (List.mem_cons_of_mem p hq)
    have hstep : bufColVal b p.1 p.2 =
        .ok ⟨b.data ++ " " ++ p.1 ++ "=" ++ renderCol p.2, b.cap, .InColumns⟩ := by
      rcases hb with hb | hb <;> simp [bufColVal, bufColumn, colSep, hk, hb]
    have htail := runCols_from_columns rest
      ⟨b.data ++ " " ++ p.1 ++ "=" ++ renderCol p.2, b.cap, .InColumns⟩ rfl hrest
    simp only [runCols, hstep, htail, colsStr, List.isEmpty_cons]
    simp [String.append_assoc]

/-- C1: a sequence of calls table(name), zero or more symbol(key, value),
zero or more typed column calls, then at(nanos) or atNow(), with all names
and values valid, appends to the line buffer exactly one line of the grammar
`table_name(,key=value)*( key=value(,key=value)*)? (timestamp_nanos)?\n`:
the table token first, all symbols as `,key=value` before the first space,
all typed columns after a single space separated by commas, an optional
space-prefixed nanosecond timestamp, and a terminating newline. -/
theorem row_grammar (b : LineBuffer) (tbl : String) (syms : List (String × String))
    (cols : List (String × ColVal)) (ts : Option ℤ)
    (hb : b.rowState = .NeedTable) (htbl : validTableName tbl = true)
    (hsy : ∀ p ∈ syms, validColumnName p.1 = true)
    (hco : ∀ p ∈ cols, validColumnName p.1 = true) :
    runRow b tbl syms cols ts =
      .ok ⟨b.data ++ tbl ++ symsStr syms ++ colsStr cols ++ tsStr ts ++ "\n",
           b.cap, .NeedTable⟩ := by
  have h1 : bufTable b tbl = .ok ⟨b.data ++ tbl, b.cap, .NeedFirstField⟩ := by
    simp [bufTable, htbl, hb]
  have h2 := runSymbols_ok syms ⟨b.data ++ tbl, b.cap, .NeedFirstField⟩ (Or.inl rfl) hsy
  have hs2 : (if syms.isEmpty then RowState.NeedFirstField else RowState.InSymbols) =
      RowState.NeedFirstField ∨
      (if syms.isEmpty then RowState.NeedFirstField else RowState.InSymbols) =
      RowState.InSymbols := by
    by_cases h : syms.isEmpty <;> simp [h]
  have h3 := runCols_ok cols
    ⟨b.data ++ tbl ++ symsStr syms, b.cap,
     if syms.isEmpty then RowState.NeedFirstField else RowState.InSymbols⟩ hs2 hco
  have hs3 : ¬(if cols = [] then
      (if syms = [] then RowState.NeedFirstField else RowState.InSymbols)
      else RowState.InColumns) = RowState.NeedTable := by
    by_cases hc : cols = [] <;> by_cases hs : syms = [] <;> simp [hc, hs]
  rcases ts with _ | n
  · simp only [runRow, h1, h2, h3, tsStr]
    simp [bufAtNow, hs3, String.append_assoc]
  · simp only [runRow, h1, h2, h3, tsStr]
    simp [bufAt, hs3, String.append_assoc]

/-- Witness for C1: the row table("sensors"), symbol("loc","ny"),
float64("temp", 23.5), at(1700000000000000000) produces exactly the line
`sensors,loc=ny temp=23.5 1700000000000000000\n` (23.5 is the fraction
47/2). -/
theorem row_grammar_witness :
    ((⟨"", 0, .NeedTable⟩ : LineBuffer).rowState = .NeedTable ∧
     validTableName "sensors" = true ∧
     (∀ p ∈ [("loc", "ny")], validColumnName p.1 = true) ∧
     (∀ p ∈ [("temp", ColVal.cf64 ⟨47, 2⟩)], validColumnName p.1 = true)) ∧
    runRow ⟨"", 0, .NeedTable⟩ "sensors" [("loc", "ny")]
        [("temp", ColVal.cf64 ⟨47, 2⟩)] (some 1700000000000000000) =
      .ok ⟨"sensors,loc=ny temp=23.5 1700000000000000000\n", 0, .NeedTable⟩ :=
  ⟨⟨rfl, by decide, by decide, by decide⟩,
   (row_grammar ⟨"", 0, .NeedTable⟩ "sensors" [("loc", "ny")]
      [("temp", ColVal.cf64 ⟨47, 2⟩)] (some 1700000000000000000)
      rfl (by decide) (by decide) (by decide)).trans (by rfl)⟩

theorem doBufCall_of_buffer_none (st : WrapSt) (nameOk : Bool)
    (f : LineBuffer → Except IlpError LineBuffer) (hb : st.buffer = none) :
    doBufCall st nameOk f = handleErr st .invalidArg := by
  cases nameOk <;> simp [doBufCall, handleErr, libBufOp, hb]

theorem doBufCall_ok (st : WrapSt) (b b2 : LineBuffer)
    (f : LineBuffer → Except IlpError LineBuffer)
    (hb : st.buffer = some b) (hf : f b = .ok b2) :
    doBufCall st true f = { st with buffer := some b2 } := by
  simp [doBufCall, libBufOp, hb, hf]

theorem doBufCall_error (st : WrapSt) (b : LineBuffer)
    (f : LineBuffer → Except IlpError LineBuffer) (e : IlpError)
    (hb : st.buffer = some b) (hf : f b = .error e) :
    doBufCall st true f = handleErr st e := by
  simp [doBufCall, libBufOp, hb, hf]

theorem poisoned_calls_fail (c : JsCall) (netOk : Bool) (args : List JSValue)
    (h : rowOrFlush c = true) :
    ((dispatch c netOk args senderNew).st.thrown).isSome = true := by
  cases c
  case endpointC => simp [rowOrFlush] at h
  case enableTLSC => simp [rowOrFlush] at h
  case enableTLSWithCAC => simp [rowOrFlush] at h
  case withAuthC => simp [rowOrFlush] at h
  case connectC => simp [rowOrFlush] at h
  case closeC => simp [rowOrFlush] at h
  case tableC =>
    simp only [dispatch, sSetTable]
    split_ifs <;>
      simp [throwRes, doSetTable, doBufCall_of_buffer_none, senderNew, handleErr]
  case symbolC =>
    simp only [dispatch, sAddSymbol]
    split_ifs <;>
      simp [throwRes, doAddSymbol, doBufCall_of_buffer_none, senderNew, handleErr]
  case stringC =>
    simp only [dispatch, sAddString]
    split_ifs <;>
      simp [throwRes, doAddString, doBufCall_of_buffer_none, senderNew, handleErr]
  case booleanC =>
    simp only [dispatch, sAddBool]
    split_ifs <;>
      simp [throwRes, doAddBool, doBufCall_of_buffer_none, senderNew, handleErr]
  case int64C =>
    simp only [dispatch, sAddInt64]
    split_ifs <;>
      simp [throwRes, doAddInt64, doBufCall_of_buffer_none, senderNew, handleErr]
  case float64C =>
    simp only [dispatch, sAddFloat64]
    split_ifs <;>
      simp [throwRes, doAddFloat64, doBufCall_of_buffer_none, senderNew, handleErr]
  case timestampC =>
    simp only [dispatch, sAddTimestamp]
    split_ifs <;>
      simp [throwRes, doAddTimestamp, doBufCall_of_buffer_none, senderNew, handleErr]
  case atC =>
    simp only [dispatch, sAt]
    split_ifs <;> simp [throwRes, libBufOp, senderNew, handleErr]
  case atNowC =>
    simp [dispatch, sAtNow, libBufOp, senderNew, handleErr]
  case flushC =>
    simp [dispatch, sFlush, libFlush, senderNew, handleErr]


/-- C2: calling symbol(key, value) after a non-symbol column call in the
same row raises the protocol-order-violation error and poisons the Sender:
the pending buffer is discarded, the transport is closed, the native
resources are released, and every subsequent row-building or flush call on
the Sender also fails. -/
theorem symbol_after_column_poisons (st : WrapSt) (b : LineBuffer) (k v : String)
    (hb : st.buffer = some b) (hrow : b.rowState = .InColumns)
    (hk : validColumnName k = true) :
    (sAddSymbol [.str k, .str v] st).st.thrown = some (errMsg .orderViolation) ∧
    (sAddSymbol [.str k, .str v] st).st.opts = none ∧
    (sAddSymbol [.str k, .str v] st).st.buffer = none ∧
    (sAddSymbol [.str k, .str v] st).st.conn = none ∧
    ∀ c netOk args, rowOrFlush c = true →
      ((dispatch c netOk args
          (clearThrown (sAddSymbol [.str k, .str v] st).st)).st.thrown).isSome = true := by
  have hf : bufSymbol b k v = .error .orderViolation := by
    simp [bufSymbol, hk, hrow]
  have hrun : sAddSymbol [.str k, .str v] st = ⟨handleErr st .orderViolation, .self⟩ := by
    simp [sAddSymbol, arg, JSValue.isStr, JSValue.asStr, doAddSymbol, hk,
      doBufCall_error st b (fun bb => bufSymbol bb k v) .orderViolation hb hf]
  refine ⟨by simp [hrun, handleErr], by simp [hrun, handleErr],
    by simp [hrun, handleErr], by simp [hrun, handleErr], ?_⟩
  intro c netOk args hc
  have hps : clearThrown (sAddSymbol [.str k, .str v] st).st = senderNew := by
    simp [hrun, clearThrown, handleErr, senderNew]
  rw [hps]
  exact poisoned_calls_fail c netOk args hc

/-- Witness for C2: on a connected sender whose open row already holds a
float column, symbol("a","b") throws the order-violation message and all
handles are torn down. -/
theorem symbol_after_column_poisons_witness :
    ((⟨none, some ⟨""⟩, some ⟨"t x=1.0", 65536, .InColumns⟩, none⟩ : WrapSt).buffer =
        some ⟨"t x=1.0", 65536, .InColumns⟩ ∧
     (⟨"t x=1.0", 65536, .InColumns⟩ : LineBuffer).rowState = .InColumns ∧
     validColumnName "a" = true) ∧
    ((sAddSymbol [.str "a", .str "b"]
        ⟨none, some ⟨""⟩, some ⟨"t x=1.0", 65536, .InColumns⟩, none⟩).st.thrown =
          some (errMsg .orderViolation) ∧
     (sAddSymbol [.str "a", .str "b"]
        ⟨none, some ⟨""⟩, some ⟨"t x=1.0", 65536, .InColumns⟩, none⟩).st.opts = none ∧
     (sAddSymbol [.str "a", .str "b"]
        ⟨none, some ⟨""⟩, some ⟨"t x=1.0", 65536, .InColumns⟩, none⟩).st.buffer = none ∧
     (sAddSymbol [.str "a", .str "b"]
        ⟨none, some ⟨""⟩, some ⟨"t x=1.0", 65536, .InColumns⟩, none⟩).st.conn = none ∧
     ∀ c netOk args, rowOrFlush c = true →
       ((dispatch c netOk args
           (clearThrown (sAddSymbol [.str "a", .str "b"]
             ⟨none, some ⟨""⟩, some ⟨"t x=1.0", 65536, .InColumns⟩, none⟩).st)).st.thrown).isSome
         = true) :=
  ⟨⟨rfl, rfl, by decide⟩,
   symbol_after_column_poisons
     ⟨none, some ⟨""⟩, some ⟨"t x=1.0", 65536, .InColumns⟩, none⟩
     ⟨"t x=1.0", 65536, .InColumns⟩ "a" "b" rfl rfl (by decide)⟩


theorem wrap64_id (m : ℤ) (h1 : -(2 ^ 63) ≤ m) (h2 : m < 2 ^ 63) : wrap64 m = m := by
  unfold wrap64
  omega

/-- C3: connect() returns a boolean; on failure it returns false and the
Sender remains unconnected with no transport and no line buffer, and a
retry with corrected configuration (endpoint then connect) succeeds; on
success it returns true, allocates the line buffer with 64 KiB reserved
capacity only then, and the Sender is connected. -/
theorem connect_outcomes (st : WrapSt) (netOk : Bool)
    (hb : st.buffer = none) (hc : st.conn = none) (ht : st.thrown = none) :
    (∃ ok : Bool, (sConnect netOk [] st).ret = .boolean ok) ∧
    (st.opts.isSome = true ∧ netOk = true →
      (sConnect netOk [] st).ret = .boolean true ∧
      (sConnect netOk [] st).st.conn = some ⟨""⟩ ∧
      (sConnect netOk [] st).st.buffer = some ⟨"", 64 * 1024, .NeedTable⟩ ∧
      (sConnect netOk [] st).st.thrown = none) ∧
    (¬(st.opts.isSome = true ∧ netOk = true) →
      (sConnect netOk [] st).ret = .boolean false ∧
      (sConnect netOk [] st).st.conn = none ∧
      (sConnect netOk [] st).st.buffer = none ∧
      (sConnect netOk [] st).st.opts = none ∧
      (sConnect netOk [] st).st.thrown = none ∧
      ∀ host port, (sConnect true []
          (sEndPoint [.str host, .num port] (sConnect netOk [] st).st).st).ret =
        .boolean true) := by
  refine ⟨?_, ?_, ?_⟩
  · by_cases h : (st.opts.isSome && netOk) = true
    · exact ⟨true, by simp [sConnect, doConnect, h]⟩
    · exact ⟨false, by simp [sConnect, doConnect, h]⟩
  · rintro ⟨h1, h2⟩
    have h : (st.opts.isSome && netOk) = true := by simp [h1, h2]
    refine ⟨by simp [sConnect, doConnect, h], by simp [sConnect, doConnect, h], ?_,
      by simp [sConnect, doConnect, h, ht]⟩
    simp [sConnect, doConnect, h, bufferReserve, bufferNew]
  · intro hno
    have h : (st.opts.isSome && netOk) = false := by
      rcases Bool.eq_false_or_eq_true st.opts.isSome with h1 | h1 <;>
        rcases Bool.eq_false_or_eq_true netOk with h2 | h2 <;> simp_all
    refine ⟨by simp [sConnect, doConnect, h], by simp [sConnect, doConnect, h, hc],
      by simp [sConnect, doConnect, h, hb], by simp [sConnect, doConnect, h],
      by simp [sConnect, doConnect, h, ht], ?_⟩
    intro host port
    simp [sConnect, doConnect, h, sEndPoint, arg, JSValue.isStr, JSValue.isNum,
      JSValue.asStr, JSValue.asNum, doEndPoint]

/-- Witness for C3: a sender configured for localhost:9009 connects
successfully, returning true and allocating the 64 KiB buffer. -/
theorem connect_outcomes_witness :
    ((⟨some ⟨"localhost", 9009, .plain, none⟩, none, none, none⟩ : WrapSt).buffer = none ∧
     (⟨some ⟨"localhost", 9009, .plain, none⟩, none, none, none⟩ : WrapSt).conn = none ∧
     (⟨some ⟨"localhost", 9009, .plain, none⟩, none, none, none⟩ : WrapSt).thrown = none) ∧
    ((sConnect true [] ⟨some ⟨"localhost", 9009, .plain, none⟩, none, none, none⟩).ret =
        .boolean true ∧
     (sConnect true [] ⟨some ⟨"localhost", 9009, .plain, none⟩, none, none, none⟩).st.buffer =
        some ⟨"", 64 * 1024, .NeedTable⟩) :=
  ⟨⟨rfl, rfl, rfl⟩,
   let h := connect_outcomes ⟨some ⟨"localhost", 9009, .plain, none⟩, none, none, none⟩
     true rfl rfl rfl
   ⟨(h.2.1 ⟨rfl, rfl⟩).1, (h.2.1 ⟨rfl, rfl⟩).2.2.1⟩⟩

/-- C4: on a connected Sender whose buffer holds only complete,
newline-terminated rows, flush() writes exactly the buffer's bytes to the
transport; the buffer contents become empty while the reserved capacity is
retained, the connection stays up, and no other field of the Sender
changes. -/
theorem flush_writes_and_clears (st : WrapSt) (c : ConnState) (b : LineBuffer)
    (args : List JSValue)
    (hc : st.conn = some c) (hb : st.buffer = some b) (hrow : b.rowState = .NeedTable) :
    sFlush args st =
      ⟨{ st with conn := some ⟨c.sent ++ b.data⟩, buffer := some ⟨"", b.cap, .NeedTable⟩ },
       .undef⟩ := by
  simp [sFlush, libFlush, hc, hb, hrow]

/-- Witness for C4: flushing a buffer holding the completed row `t x=1i\n`
sends exactly those bytes and clears the buffer, keeping its capacity. -/
theorem flush_writes_and_clears_witness :
    ((⟨none, some ⟨""⟩, some ⟨"t x=1i\n", 65536, .NeedTable⟩, none⟩ : WrapSt).conn =
        some ⟨""⟩ ∧
     (⟨none, some ⟨""⟩, some ⟨"t x=1i\n", 65536, .NeedTable⟩, none⟩ : WrapSt).buffer =
        some ⟨"t x=1i\n", 65536, .NeedTable⟩ ∧
     (⟨"t x=1i\n", 65536, .NeedTable⟩ : LineBuffer).rowState = .NeedTable) ∧
    sFlush [] ⟨none, some ⟨""⟩, some ⟨"t x=1i\n", 65536, .NeedTable⟩, none⟩ =
      ⟨⟨none, some ⟨"t x=1i\n"⟩, some ⟨"", 65536, .NeedTable⟩, none⟩, .undef⟩ :=
  ⟨⟨rfl, rfl, rfl⟩,
   flush_writes_and_clears ⟨none, some ⟨""⟩, some ⟨"t x=1i\n", 65536, .NeedTable⟩, none⟩
     ⟨""⟩ ⟨"t x=1i\n", 65536, .NeedTable⟩ [] rfl rfl rfl⟩

/-- C5, failing input: int64("x", 1.5) (the fraction 3/2) on a connected
sender with an open row raises no error at all — the binding's type check
accepts any Number, `extract_int` casts the double to `int64_t`, and the
value is silently truncated to 1 and appended as `x=1i`.  This contradicts
both the specification (a non-integral number used for an integer column
must fail with InvalidArgument rather than silently truncate) and the
binding's own error message, which demands an integer. -/
theorem int64_fractional_truncated :
    sAddInt64 [.str "x", .num ⟨3, 2⟩]
        ⟨none, some ⟨""⟩, some ⟨"t", 65536, .NeedFirstField⟩, none⟩ =
      ⟨⟨none, some ⟨""⟩, some ⟨"t x=1i", 65536, .InColumns⟩, none⟩, .self⟩ := rfl

/-- Counterexample for C6: endpoint("localhost", 70000) — a port outside
1..65535 — raises no error and commits the options handle with port 70000;
the claimed port-range validation does not exist in the code. -/
theorem endpoint_port_unchecked_cex :
    (sEndPoint [.str "localhost", .num ⟨70000, 1⟩] senderNew).st.thrown = none ∧
    (sEndPoint [.str "localhost", .num ⟨70000, 1⟩] senderNew).st.opts =
      some ⟨"localhost", 70000, .plain, none⟩ ∧
    (sEndPoint [.str "localhost", .num ⟨70000, 1⟩] senderNew).ret = .self :=
  ⟨rfl, rfl, rfl⟩

/-- C6 as amended: endpoint(host, port) throws a TypeError for missing or
wrongly-typed arguments; given a string host and a numeric port, the host
UTF-8 check cannot fail for a binding-layer string and no port-range check
is performed, so the call always succeeds and commits a fresh config with
that host and the port truncated to an integer. -/
theorem endpoint_commits (host : String) (port : JsNum) (st : WrapSt) :
    sEndPoint [.str host, .num port] st =
      ⟨{ st with opts := some ⟨host, jsTrunc port, .plain, none⟩ }, .self⟩ := by
  simp [sEndPoint, arg, JSValue.isStr, JSValue.isNum, JSValue.asStr, JSValue.asNum,
    doEndPoint]

/-- Counterexample for C7: after close() on a connected Sender the
transport is released, but the sequence endpoint("localhost", 9009) then
connect() moves the Sender back to a connected state — so an operation
does transition the Sender out of Closed, refuting that conjunct of the
claim. -/
theorem close_not_absorbing_cex :
    (sClose [] ⟨none, some ⟨""⟩, some ⟨"", 65536, .NeedTable⟩, none⟩).st.conn = none ∧
    (sConnect true []
        (sEndPoint [.str "localhost", .num ⟨9009, 1⟩]
          (sClose [] ⟨none, some ⟨""⟩, some ⟨"", 65536, .NeedTable⟩, none⟩).st).st).ret =
      .boolean true ∧
    ((sConnect true []
        (sEndPoint [.str "localhost", .num ⟨9009, 1⟩]
          (sClose [] ⟨none, some ⟨""⟩, some ⟨"", 65536, .NeedTable⟩, none⟩).st).st).st.conn).isSome
      = true :=
  ⟨rfl, rfl, rfl⟩

/-- C7 as amended: close() never raises (it has no throw path), releases
the transport from any state, and a second close() is a no-op leaving the
state unchanged — but nothing prevents a later endpoint()/connect() from
reconnecting, so Closed is not an absorbing state. -/
theorem close_idempotent_safe (args args2 : List JSValue) (st : WrapSt) :
    (sClose args st).ret = .undef ∧
    (sClose args st).st.thrown = st.thrown ∧
    (sClose args st).st.conn = none ∧
    sClose args2 (sClose args st).st = sClose args st :=
  ⟨rfl, rfl, rfl, rfl⟩

/-- C8: timestamp(key, value) forwards its integer value as microseconds
and at(value) forwards its integer value as nanoseconds, and neither call
converts between the units — for any 64-bit integer the decimal digits
appended to the buffer are exactly those of the caller's integer. -/
theorem timestamp_units_passthrough (st st2 : WrapSt) (b b2 : LineBuffer) (k : String)
    (m n : ℤ)
    (hb : st.buffer = some b) (hrow : ¬b.rowState = .NeedTable)
    (hk : validColumnName k = true)
    (hm1 : -(2 ^ 63) ≤ m) (hm2 : m < 2 ^ 63)
    (hb2 : st2.buffer = some b2) (hrow2 : ¬b2.rowState = .NeedTable)
    (hn1 : -(2 ^ 63) ≤ n) (hn2 : n < 2 ^ 63) :
    (sAddTimestamp [.str k, .bigint m] st).st.buffer =
      some ⟨b.data ++ colSep b.rowState ++ k ++ "=" ++ toString m ++ "t",
            b.cap, .InColumns⟩ ∧
    (sAt [.bigint n] st2).st.buffer =
      some ⟨b2.data ++ " " ++ toString n ++ "\n", b2.cap, .NeedTable⟩ := by
  constructor
  · have hf : bufColumnTs b k (wrap64 m) =
        .ok ⟨b.data ++ colSep b.rowState ++ k ++ "=" ++ toString m ++ "t",
             b.cap, .InColumns⟩ := by
      simp [bufColumnTs, bufColumn, renderTs, hk, hrow, wrap64_id m hm1 hm2,
        String.append_assoc]
    simp [sAddTimestamp, arg, JSValue.isStr, JSValue.isBigInt, JSValue.asStr,
      extract_int, doAddTimestamp, hk,
      doBufCall_ok st b _ (fun bb => bufColumnTs bb k (wrap64 m)) hb hf]
  · have hf2 : bufAt b2 (wrap64 n) =
        .ok ⟨b2.data ++ " " ++ toString n ++ "\n", b2.cap, .NeedTable⟩ := by
      simp [bufAt, hrow2, wrap64_id n hn1 hn2, String.append_assoc]
    simp [sAt, arg, JSValue.isBigInt, extract_int, libBufOp, hb2, hf2]

/-- Witness for C8: timestamp("ts", 1000) appends `ts=1000t` and
at(1700000000000000000) appends ` 1700000000000000000` before the
newline, both digits-for-digits the caller's integers. -/
theorem timestamp_units_passthrough_witness :
    ((⟨none, some ⟨""⟩, some ⟨"t", 65536, .NeedFirstField⟩, none⟩ : WrapSt).buffer =
        some ⟨"t", 65536, .NeedFirstField⟩ ∧
     ¬(⟨"t", 65536, .NeedFirstField⟩ : LineBuffer).rowState = .NeedTable ∧
     validColumnName "ts" = true) ∧
    ((sAddTimestamp [.str "ts", .bigint 1000]
        ⟨none, some ⟨""⟩, some ⟨"t", 65536, .NeedFirstField⟩, none⟩).st.buffer =
      some ⟨"t" ++ colSep RowState.NeedFirstField ++ "ts" ++ "=" ++ toString (1000 : ℤ) ++ "t",
            65536, .InColumns⟩ ∧
     (sAt [.bigint 1700000000000000000]
        ⟨none, some ⟨""⟩, some ⟨"t", 65536, .NeedFirstField⟩, none⟩).st.buffer =
      some ⟨"t" ++ " " ++ toString (1700000000000000000 : ℤ) ++ "\n", 65536, .NeedTable⟩) :=
  ⟨⟨rfl, by decide, by decide⟩,
   timestamp_units_passthrough
     ⟨none, some ⟨""⟩, some ⟨"t", 65536, .NeedFirstField⟩, none⟩
     ⟨none, some ⟨""⟩, some ⟨"t", 65536, .NeedFirstField⟩, none⟩
     ⟨"t", 65536, .NeedFirstField⟩ ⟨"t", 65536, .NeedFirstField⟩ "ts"
     1000 1700000000000000000 rfl (by decide) (by decide)
     (by decide) (by decide) rfl (by decide) (by decide) (by decide)⟩


/-- C9: whenever a binding-level argument check fails (too few arguments or
a wrongly-typed argument) on any exposed method, the call throws a
TypeError and returns before any native buffer or connection operation
runs: the options, connection and buffer handles are exactly as before the
call, so argument-validation failures are atomic and do not poison the
Sender. -/
theorem arg_check_atomic (c : JsCall) (netOk : Bool) (args : List JSValue) (st : WrapSt)
    (h : bindingOk c args = false) :
    (dispatch c netOk args st).st.opts = st.opts ∧
    (dispatch c netOk args st).st.conn = st.conn ∧
    (dispatch c netOk args st).st.buffer = st.buffer ∧
    ((dispatch c netOk args st).st.thrown).isSome = true := by
  cases c
  case enableTLSC => simp [bindingOk] at h
  case closeC => simp [bindingOk] at h
  case flushC => simp [bindingOk] at h
  case atNowC => simp [bindingOk] at h
  case endpointC =>
    simp only [dispatch, sEndPoint]
    split_ifs <;> first
      | (simp [throwRes]; done)
      | ((exfalso; simp_all [bindingOk]) <;>
          first
            | omega
            | (rcases args with _ | ⟨a, rest⟩ <;> simp_all))
  case enableTLSWithCAC =>
    simp only [dispatch, sEnableTLSWithCA]
    split_ifs <;> first
      | (simp [throwRes]; done)
      | ((exfalso; simp_all [bindingOk]) <;>
          first
            | omega
            | (rcases args with _ | ⟨a, rest⟩ <;> simp_all))
  case withAuthC =>
    simp only [dispatch, sWithAuth]
    split_ifs <;> first
      | (simp [throwRes]; done)
      | ((exfalso; simp_all [bindingOk]) <;>
          first
            | omega
            | (rcases args with _ | ⟨a, rest⟩ <;> simp_all))
  case connectC =>
    simp only [dispatch, sConnect]
    split_ifs <;> first
      | (simp [throwRes]; done)
      | ((exfalso; simp_all [bindingOk]) <;>
          first
            | omega
            | (rcases args with _ | ⟨a, rest⟩ <;> simp_all))
  case atC =>
    simp only [dispatch, sAt]
    split_ifs <;> first
      | (simp [throwRes]; done)
      | ((exfalso; simp_all [bindingOk]) <;>
          first
            | omega
            | (rcases args with _ | ⟨a, rest⟩ <;> simp_all))
  case tableC =>
    simp only [dispatch, sSetTable]
    split_ifs <;> first
      | (simp [throwRes]; done)
      | ((exfalso; simp_all [bindingOk]) <;>
          first
            | omega
            | (rcases args with _ | ⟨a, rest⟩ <;> simp_all))
  case symbolC =>
    simp only [dispatch, sAddSymbol]
    split_ifs <;> first
      | (simp [throwRes]; done)
      | ((exfalso; simp_all [bindingOk]) <;>
          first
            | omega
            | (rcases args with _ | ⟨a, rest⟩ <;> simp_all))
  case stringC =>
    simp only [dispatch, sAddString]
    split_ifs <;> first
      | (simp [throwRes]; done)
      | ((exfalso; simp_all [bindingOk]) <;>
          first
            | omega
            | (rcases args with _ | ⟨a, rest⟩ <;> simp_all))
  case booleanC =>
    simp only [dispatch, sAddBool]
    split_ifs <;> first
      | (simp [throwRes]; done)
      | ((exfalso; simp_all [bindingOk]) <;>
          first
            | omega
            | (rcases args with _ | ⟨a, rest⟩ <;> simp_all))
  case int64C =>
    simp only [dispatch, sAddInt64]
    split_ifs <;> first
      | (simp [throwRes]; done)
      | ((exfalso; simp_all [bindingOk]) <;>
          first
            | omega
            | (rcases args with _ | ⟨a, rest⟩ <;> simp_all))
  case float64C =>
    simp only [dispatch, sAddFloat64]
    split_ifs <;> first
      | (simp [throwRes]; done)
      | ((exfalso; simp_all [bindingOk]) <;>
          first
            | omega
            | (rcases args with _ | ⟨a, rest⟩ <;> simp_all))
  case timestampC =>
    simp only [dispatch, sAddTimestamp]
    split_ifs <;> first
      | (simp [throwRes]; done)
      | ((exfalso; simp_all [bindingOk]) <;>
          first
            | omega
            | (rcases args with _ | ⟨a, rest⟩ <;> simp_all))

/-- Witness for C9: table() with no arguments throws and leaves a fresh
sender's handles untouched. -/
theorem arg_check_atomic_witness :
    bindingOk .tableC [] = false ∧
    ((dispatch .tableC true [] senderNew).st.opts = senderNew.opts ∧
     (dispatch .tableC true [] senderNew).st.conn = senderNew.conn ∧
     (dispatch .tableC true [] senderNew).st.buffer = senderNew.buffer ∧
     ((dispatch .tableC true [] senderNew).st.thrown).isSome = true) :=
  ⟨by decide, arg_check_atomic .tableC true [] senderNew (by decide)⟩

/-- C10: on every call that completes without a pending exception, the
configuration and row-building methods (endpoint, enableTLS,
enableTLSWithCA, withAuth, table, symbol, string, boolean, int64, float64,
timestamp) return the Sender object itself, connect returns a boolean, and
at, atNow, flush and close return undefined. -/
theorem return_values (c : JsCall) (netOk : Bool) (args : List JSValue) (st : WrapSt)
    (h : (dispatch c netOk args st).st.thrown = none) :
    retOk c (dispatch c netOk args st).ret = true := by
  cases c
  case enableTLSC => simp [dispatch, sEnableTLS, retOk]
  case closeC => simp [dispatch, sClose, retOk]
  case flushC =>
    cases hh : libFlush st.conn st.buffer <;> simp [dispatch, sFlush, hh, retOk]
  case atNowC =>
    cases hh : libBufOp st.buffer bufAtNow <;> simp [dispatch, sAtNow, hh, retOk]
  case atC =>
    simp only [dispatch, sAt]
    split_ifs
    · simp [throwRes, retOk]
    · simp [throwRes, retOk]
    · cases hh : libBufOp st.buffer (fun b => bufAt b (extract_int (arg args 0))) <;>
        simp [hh, retOk]
  case endpointC =>
    simp only [dispatch, sEndPoint] at h ⊢
    split_ifs at h ⊢ <;> simp_all [throwRes, retOk]
  case enableTLSWithCAC =>
    simp only [dispatch, sEnableTLSWithCA] at h ⊢
    split_ifs at h ⊢ <;> simp_all [throwRes, retOk]
  case withAuthC =>
    simp only [dispatch, sWithAuth] at h ⊢
    split_ifs at h ⊢ <;> simp_all [throwRes, retOk]
  case connectC =>
    simp only [dispatch, sConnect] at h ⊢
    split_ifs at h ⊢ <;> simp_all [throwRes, retOk]
  case tableC =>
    simp only [dispatch, sSetTable] at h ⊢
    split_ifs at h ⊢ <;> simp_all [throwRes, retOk]
  case symbolC =>
    simp only [dispatch, sAddSymbol] at h ⊢
    split_ifs at h ⊢ <;> simp_all [throwRes, retOk]
  case stringC =>
    simp only [dispatch, sAddString] at h ⊢
    split_ifs at h ⊢ <;> simp_all [throwRes, retOk]
  case booleanC =>
    simp only [dispatch, sAddBool] at h ⊢
    split_ifs at h ⊢ <;> simp_all [throwRes, retOk]
  case int64C =>
    simp only [dispatch, sAddInt64] at h ⊢
    split_ifs at h ⊢ <;> simp_all [throwRes, retOk]
  case float64C =>
    simp only [dispatch, sAddFloat64] at h ⊢
    split_ifs at h ⊢ <;> simp_all [throwRes, retOk]
  case timestampC =>
    simp only [dispatch, sAddTimestamp] at h ⊢
    split_ifs at h ⊢ <;> simp_all [throwRes, retOk]

/-- Witness for C10: close() on a fresh sender completes without an
exception and returns undefined. -/
theorem return_values_witness :
    (dispatch .closeC true [] senderNew).st.thrown = none ∧
    retOk .closeC (dispatch .closeC true [] senderNew).ret = true :=
  ⟨rfl, return_values .closeC true [] senderNew rfl⟩


end QuestDB
